import Mathlib

/-!
Verification of `src/couchapps/WMStats/_attachments/js/Views/HTMLList/T1/WMStats.RequestDataList.js`.

The file under scrutiny defines two functions inside an IIFE:

* `format(summary)` builds an HTML string from ten values read off the
  summary object (`summary.summaryStruct.length`, `.totalEvents`,
  `.processedEvents`, and the accessors `getWMBSTotalJobs()`,
  `getTotalCooloff()`, `getJobStatus('success')`, `getTotalFailure()`,
  `getTotalQueued()`, `getJobStatus('submit.running')`,
  `getJobStatus('submit.pending')`).  Note that the accumulator variable is
  written as `htmlstr = ""` without `var`, which in (non-strict) JavaScript
  creates and repeatedly overwrites a global binding named `htmlstr`.

* `WMStats.RequestDataList(data, containerDiv)` evaluates `format(data)` and
  writes the result into the container via `$(containerDiv).html(...)`,
  replacing the container's previous content.

The embedding below models summary field/accessor values as natural numbers
(the JavaScript values are job/event counts, rendered in decimal exactly as
`Nat.repr` renders a `Nat`).  Duck typing is modelled by `DynSummary`, whose
accessors may be absent (`Option`); calling an absent accessor aborts the
rendering, as the corresponding JavaScript call would throw.  The original
code has no explicit error handling and jQuery is not part of the repository,
so the error taxonomy and the UI sink follow the specification: a missing
accessor yields `RenderFailure.renderError`, an unresolvable container yields
`RenderFailure.targetNotFoundError`, and in both cases nothing is written.
-/

/-- The nested `summary.summaryStruct` record: a request count (`length` of
the underlying array) and two event counters. -/
structure SummaryStruct where
  length : Nat
  totalEvents : Nat
  processedEvents : Nat

/-- A summary object exposing every capability the renderer reads.  This is
the "valid Summary" of the data model: all accessors return values. -/
structure Summary where
  summaryStruct : SummaryStruct
  getWMBSTotalJobs : Nat
  getTotalCooloff : Nat
  getJobStatus : String → Nat
  getTotalFailure : Nat
  getTotalQueued : Nat

/-- A duck-typed summary object: each accessor may be absent (`none`), as a
JavaScript object may lack any of the methods `format` calls. -/
structure DynSummary where
  summaryStruct : SummaryStruct
  getWMBSTotalJobs : Option Nat
  getTotalCooloff : Option Nat
  getJobStatus : Option (String → Nat)
  getTotalFailure : Option Nat
  getTotalQueued : Option Nat

/-- View a total summary as a duck-typed one (every accessor present). -/
def Summary.toDyn (s : Summary) : DynSummary :=
  ⟨s.summaryStruct, some s.getWMBSTotalJobs, some s.getTotalCooloff,
    some s.getJobStatus, some s.getTotalFailure, some s.getTotalQueued⟩

/-- The global bindings the code can touch: `htmlstr` is assigned without
`var` in the source, so it lives in the global scope.  `none` models the
binding not existing yet. -/
structure Globals where
  htmlstr : Option String
deriving DecidableEq

/-- Failure modes of the renderer.  Modelled from the spec: `renderError` is
the "RenderError (missing-field)" raised when an accessor is absent,
`targetNotFoundError` the "TargetNotFoundError" raised when the container
reference does not resolve.  (The JavaScript original throws an untyped
`TypeError` for the former and relies on jQuery for the latter.) -/
inductive RenderFailure
  | renderError
  | targetNotFoundError
deriving DecidableEq

/-- The `format` function of the source on a total summary: the sequential
`htmlstr += ...` chain, one `let` per statement. -/
def format (summary : Summary) : String :=
  let htmlstr := ""
  let htmlstr := htmlstr ++ "<div class='requestSummaryBox'>"
  let htmlstr := htmlstr ++ "<ul>"
  let htmlstr := htmlstr ++ ("<li> requests: " ++ toString summary.summaryStruct.length ++ "</li>")
  let htmlstr := htmlstr ++ ("<li> total events: " ++ toString summary.summaryStruct.totalEvents ++ "</li>")
  let htmlstr := htmlstr ++ ("<li> processed events: " ++ toString summary.summaryStruct.processedEvents ++ "</li>")
  let htmlstr := htmlstr ++ ("<li> created: " ++ toString summary.getWMBSTotalJobs ++ "</li>")
  let htmlstr := htmlstr ++ ("<li> cooloff: " ++ toString summary.getTotalCooloff ++ "</li>")
  let htmlstr := htmlstr ++ ("<li> success: " ++ toString (summary.getJobStatus "success") ++ "</li>")
  let htmlstr := htmlstr ++ ("<li> failure: " ++ toString summary.getTotalFailure ++ "</li>")
  let htmlstr := htmlstr ++ ("<li> queued: " ++ toString summary.getTotalQueued ++ "</li>")
  let htmlstr := htmlstr ++ ("<li> running: " ++ toString (summary.getJobStatus "submit.running") ++ "</li>")
  let htmlstr := htmlstr ++ ("<li> pending: " ++ toString (summary.getJobStatus "submit.pending") ++ "</li>")
  let htmlstr := htmlstr ++ "</ul>"
  let htmlstr := htmlstr ++ "</div>"
  htmlstr

/-- The `format` function on a duck-typed summary, with the global scope
threaded through.  Each absent accessor aborts at the statement that calls
it, exactly where the JavaScript call would throw; the returned `Globals`
holds the last value the implicit global `htmlstr` was assigned before the
function returned or aborted. -/
def formatG (g : Globals) (summary : DynSummary) : Globals × Except RenderFailure String :=
  let htmlstr := ""
  let htmlstr := htmlstr ++ "<div class='requestSummaryBox'>"
  let htmlstr := htmlstr ++ "<ul>"
  let htmlstr := htmlstr ++ ("<li> requests: " ++ toString summary.summaryStruct.length ++ "</li>")
  let htmlstr := htmlstr ++ ("<li> total events: " ++ toString summary.summaryStruct.totalEvents ++ "</li>")
  let htmlstr := htmlstr ++ ("<li> processed events: " ++ toString summary.summaryStruct.processedEvents ++ "</li>")
  match summary.getWMBSTotalJobs with
  | none => ({ htmlstr := some htmlstr }, Except.error RenderFailure.renderError)
  | some wmbs =>
    let htmlstr := htmlstr ++ ("<li> created: " ++ toString wmbs ++ "</li>")
    match summary.getTotalCooloff with
    | none => ({ htmlstr := some htmlstr }, Except.error RenderFailure.renderError)
    | some cool =>
      let htmlstr := htmlstr ++ ("<li> cooloff: " ++ toString cool ++ "</li>")
      match summary.getJobStatus with
      | none => ({ htmlstr := some htmlstr }, Except.error RenderFailure.renderError)
      | some jobStatus =>
        let htmlstr := htmlstr ++ ("<li> success: " ++ toString (jobStatus "success") ++ "</li>")
        match summary.getTotalFailure with
        | none => ({ htmlstr := some htmlstr }, Except.error RenderFailure.renderError)
        | some failureTotal =>
          let htmlstr := htmlstr ++ ("<li> failure: " ++ toString failureTotal ++ "</li>")
          match summary.getTotalQueued with
          | none => ({ htmlstr := some htmlstr }, Except.error RenderFailure.renderError)
          | some queuedTotal =>
            let htmlstr := htmlstr ++ ("<li> queued: " ++ toString queuedTotal ++ "</li>")
            let htmlstr := htmlstr ++ ("<li> running: " ++ toString (jobStatus "submit.running") ++ "</li>")
            let htmlstr := htmlstr ++ ("<li> pending: " ++ toString (jobStatus "submit.pending") ++ "</li>")
            let htmlstr := htmlstr ++ "</ul>"
            let htmlstr := htmlstr ++ "</div>"
            ({ htmlstr := some htmlstr }, Except.ok htmlstr)

/-- The DOM, restricted to what the code touches: each container name either
resolves to an element with some current content, or does not resolve. -/
@[ext]
structure DOM where
  content : String → Option String

/-- The renderer `WMStats.RequestDataList(data, containerDiv)`.  It runs
`format` (which may abort on a missing accessor) and then performs
`$(containerDiv).html(markup)`.  Modelled from the spec: the jQuery sink is
not part of the repository, so per the specification an unresolvable
container fails with `targetNotFoundError` and no markup is written;
a resolvable container has its content fully replaced.  The summary object
is threaded through as part of the mutable state so that its preservation is
an explicit result. -/
def WMStats.RequestDataList (g : Globals) (dom : DOM) (data : DynSummary)
    (containerDiv : String) : Globals × DOM × DynSummary × Except RenderFailure Unit :=
  match formatG g data with
  | (g1, Except.error e) => (g1, dom, data, Except.error e)
  | (g1, Except.ok markup) =>
    match dom.content containerDiv with
    | none => (g1, dom, data, Except.error RenderFailure.targetNotFoundError)
    | some _ =>
      (g1, { content := fun k => if k = containerDiv then some markup else dom.content k },
        data, Except.ok ())

/-- Number of (possibly overlapping) occurrences of the pattern `p` in a
character list. -/
def countOccur (p : List Char) : List Char → Nat
  | [] => 0
  | c :: rest => (if p.isPrefixOf (c :: rest) then 1 else 0) + countOccur p rest

/-- `ContainsInOrder cs ps` states that the strings `ps` occur in `cs` as
pairwise disjoint substrings, in the given order. -/
def ContainsInOrder : List Char → List String → Prop
  | _, [] => True
  | cs, p :: ps => ∃ a rest, cs = a ++ (p.data ++ rest) ∧ ContainsInOrder rest ps

/-- The example summary of the specification: 3 requests, 100 total events,
50 processed events, 10 WMBS jobs, 2 in cooloff, 8 succeeded, 1 failed,
4 queued, 3 running, 2 pending. -/
def exampleSummary : Summary where
  summaryStruct := ⟨3, 100, 50⟩
  getWMBSTotalJobs := 10
  getTotalCooloff := 2
  getJobStatus := fun st =>
    if st = "success" then 8
    else if st = "submit.running" then 3
    else if st = "submit.pending" then 2
    else 0
  getTotalFailure := 1
  getTotalQueued := 4

/-- A second summary agreeing with `exampleSummary` on every value the
renderer observes, but with a different `getJobStatus` elsewhere. -/
def exampleSummary2 : Summary where
  summaryStruct := ⟨3, 100, 50⟩
  getWMBSTotalJobs := 10
  getTotalCooloff := 2
  getJobStatus := fun st =>
    if st = "success" then 8
    else if st = "submit.running" then 3
    else if st = "submit.pending" then 2
    else 77
  getTotalFailure := 1
  getTotalQueued := 4

/-- The example summary with the `getTotalQueued` capability absent. -/
def exampleNoQueued : DynSummary where
  summaryStruct := ⟨3, 100, 50⟩
  getWMBSTotalJobs := some 10
  getTotalCooloff := some 2
  getJobStatus := some fun st =>
    if st = "success" then 8
    else if st = "submit.running" then 3
    else if st = "submit.pending" then 2
    else 0
  getTotalFailure := some 1
  getTotalQueued := none

/-- A DOM with a single container `"requestDiv"` currently showing stale
content. -/
def exampleDom : DOM where
  content := fun k => if k = "requestDiv" then some "stale content" else none

/-- A DOM in which no container resolves. -/
def emptyDom : DOM where
  content := fun _ => none

/-- Appending strings appends their character lists. -/
theorem string_data_append (a b : String) : (a ++ b).data = a.data ++ b.data := rfl

/-- The empty string has no characters. -/
theorem string_data_empty : ("" : String).data = [] := rfl

/-- A natural number's rendering is its list of decimal digits. -/
theorem natToString_data (n : Nat) : (toString n).data = Nat.toDigits 10 n := rfl

/-- The character list of `format s`, grouped as: fixed run, digits, fixed
run, digits, ..., fixed run. -/
theorem format_data (s : Summary) : (format s).data =
    ("<div class='requestSummaryBox'>".data ++ "<ul>".data ++ "<li> requests: ".data) ++
    ((toString s.summaryStruct.length).data ++
    (("</li>".data ++ "<li> total events: ".data) ++
    ((toString s.summaryStruct.totalEvents).data ++
    (("</li>".data ++ "<li> processed events: ".data) ++
    ((toString s.summaryStruct.processedEvents).data ++
    (("</li>".data ++ "<li> created: ".data) ++
    ((toString s.getWMBSTotalJobs).data ++
    (("</li>".data ++ "<li> cooloff: ".data) ++
    ((toString s.getTotalCooloff).data ++
    (("</li>".data ++ "<li> success: ".data) ++
    ((toString (s.getJobStatus "success")).data ++
    (("</li>".data ++ "<li> failure: ".data) ++
    ((toString s.getTotalFailure).data ++
    (("</li>".data ++ "<li> queued: ".data) ++
    ((toString s.getTotalQueued).data ++
    (("</li>".data ++ "<li> running: ".data) ++
    ((toString (s.getJobStatus "submit.running")).data ++
    (("</li>".data ++ "<li> pending: ".data) ++
    ((toString (s.getJobStatus "submit.pending")).data ++
    ("</li>".data ++ "</ul>".data ++ "</div>".data)))))))))))))))))))) := by
  simp only [format, string_data_append, string_data_empty, List.nil_append, List.append_assoc]

/-- On a total summary, the effectful `format` succeeds, returns the pure
`format`, and leaves the final markup in the global `htmlstr` binding. -/
theorem formatG_toDyn (g : Globals) (s : Summary) :
    formatG g s.toDyn = ({ htmlstr := some (format s) }, Except.ok (format s)) := rfl

/-- `Nat.digitChar` of a value below ten is a decimal digit character. -/
theorem digitChar_isDigit (d : Nat) (h : d < 10) : (Nat.digitChar d).isDigit = true := by
  interval_cases d <;> decide

/-- Every character `Nat.toDigitsCore` produces over a digit-only
accumulator is a decimal digit. -/
theorem toDigitsCore_isDigit (f : Nat) : ∀ (n : Nat) (acc : List Char),
    (∀ c ∈ acc, c.isDigit = true) → ∀ c ∈ Nat.toDigitsCore 10 f n acc, c.isDigit = true := by
  induction f with
  | zero => intro n acc hacc c hc; exact hacc c hc
  | succ f ih =>
    intro n acc hacc c hc
    simp only [Nat.toDigitsCore] at hc
    have hd : (Nat.digitChar (n % 10)).isDigit = true :=
      digitChar_isDigit _ (Nat.mod_lt _ (by decide))
    by_cases h10 : n / 10 = 0
    · rw [if_pos h10] at hc
      rcases List.mem_cons.mp hc with h | h
      · simpa [h] using hd
      · exact hacc c h
    · rw [if_neg h10] at hc
      refine ih (n / 10) (Nat.digitChar (n % 10) :: acc) ?_ c hc
      intro c' hc'
      rcases List.mem_cons.mp hc' with h | h
      · simpa [h] using hd
      · exact hacc c' h

/-- Every character in the decimal rendering of a natural number is a
decimal digit. -/
theorem natToString_isDigit (n : Nat) : ∀ c ∈ (toString n).data, c.isDigit = true := by
  rw [natToString_data]
  exact toDigitsCore_isDigit (n + 1) n [] (by simp)

/-- `Nat.toDigitsCore` never shrinks the accumulator. -/
theorem toDigitsCore_length (f : Nat) : ∀ (n : Nat) (acc : List Char),
    acc.length ≤ (Nat.toDigitsCore 10 f n acc).length := by
  induction f with
  | zero => intro n acc; simp [Nat.toDigitsCore]
  | succ f ih =>
    intro n acc
    simp only [Nat.toDigitsCore]
    by_cases h10 : n / 10 = 0
    · rw [if_pos h10]; simp
    · rw [if_neg h10]
      calc acc.length ≤ (Nat.digitChar (n % 10) :: acc).length := by simp
        _ ≤ _ := ih (n / 10) _

/-- The decimal rendering of a natural number is nonempty. -/
theorem natToString_ne_nil (n : Nat) : (toString n).data ≠ [] := by
  rw [natToString_data]
  intro hnil
  have h1 : 1 ≤ (Nat.toDigits 10 n).length := by
    unfold Nat.toDigits
    simp only [Nat.toDigitsCore]
    by_cases h10 : n / 10 = 0
    · rw [if_pos h10]; simp
    · rw [if_neg h10]
      calc 1 = ([Nat.digitChar (n % 10)] : List Char).length := rfl
        _ ≤ _ := toDigitsCore_length n (n / 10) _
  rw [hnil] at h1
  simp at h1

/-- `isPrefixOf` on character lists, characterized by concatenation. -/
theorem isPrefixOf_eq_true_iff (p l : List Char) :
    p.isPrefixOf l = true ↔ ∃ t, p ++ t = l := by
  induction p generalizing l with
  | nil => simp [List.isPrefixOf]
  | cons a as ih =>
    cases l with
    | nil => simp [List.isPrefixOf]
    | cons b bs =>
      simp only [List.isPrefixOf, Bool.and_eq_true, beq_iff_eq, ih, List.cons_append,
        List.cons.injEq]
      constructor
      · rintro ⟨hab, t, ht⟩; exact ⟨t, hab, ht⟩
      · rintro ⟨t, hab, ht⟩; exact ⟨hab, t, ht⟩

/-- Whether a pattern starts at the head of `x ++ (w ++ b)` is decided by
`x` alone, when the separator `w` is nonempty and shares no character with
the pattern. -/
theorem isPrefixOf_append_sep (p w b : List Char) (hp : p ≠ []) (hw : w ≠ [])
    (hd : ∀ c ∈ w, c ∉ p) (x : List Char) :
    p.isPrefixOf (x ++ (w ++ b)) = p.isPrefixOf x := by
  by_cases hx : p.isPrefixOf x = true
  · rw [hx]
    rw [isPrefixOf_eq_true_iff] at hx ⊢
    rcases hx with ⟨t, ht⟩
    exact ⟨t ++ (w ++ b), by rw [← List.append_assoc, ht]⟩
  · rw [Bool.not_eq_true] at hx
    rw [hx]
    rw [Bool.eq_false_iff]
    intro hfull
    rw [isPrefixOf_eq_true_iff] at hfull
    rcases hfull with ⟨t, ht⟩
    rcases List.append_eq_append_iff.mp ht with ⟨a', ha', _⟩ | ⟨c', hc', hwb⟩
    · have : p.isPrefixOf x = true :=
        (isPrefixOf_eq_true_iff p x).mpr ⟨a', ha'.symm⟩
      rw [this] at hx; cases hx
    · cases c' with
      | nil =>
        have : p.isPrefixOf x = true :=
          (isPrefixOf_eq_true_iff p x).mpr ⟨[], by simpa using hc'⟩
        rw [this] at hx; cases hx
      | cons ch c'' =>
        cases w with
        | nil => exact hw rfl
        | cons wh w' =>
          have hhead : wh = ch := by
            have := hwb
            simp only [List.cons_append, List.cons.injEq] at this
            exact this.1
          have hmem : ch ∈ p := by
            rw [hc']
            exact List.mem_append_right _ (List.mem_cons_self _ _)
          exact hd wh (List.mem_cons_self _ _) (hhead ▸ hmem)

/-- A clean separator contributes no occurrences of the pattern. -/
theorem countOccur_clean_head (p : List Char) (hp : p ≠ []) :
    ∀ (w b : List Char), (∀ c ∈ w, c ∉ p) → countOccur p (w ++ b) = countOccur p b := by
  intro w
  induction w with
  | nil => intro b _; rfl
  | cons c w' ih =>
    intro b hd
    have hnot : p.isPrefixOf (c :: (w' ++ b)) = false := by
      cases p with
      | nil => exact absurd rfl hp
      | cons ph pt =>
        rw [Bool.eq_false_iff]
        intro htrue
        rw [isPrefixOf_eq_true_iff] at htrue
        rcases htrue with ⟨t, ht⟩
        simp only [List.cons_append, List.cons.injEq] at ht
        exact hd c (List.mem_cons_self _ _) (ht.1 ▸ List.mem_cons_self _ _)
    simp only [List.cons_append, countOccur, List.append_eq, hnot, Bool.false_eq_true,
      if_false, Nat.zero_add]
    exact ih b (fun c' hc' => hd c' (List.mem_cons.mpr (Or.inr hc')))

/-- Occurrence counting distributes over a junction guarded by a nonempty
separator that shares no character with the pattern. -/
theorem countOccur_append_sep (p w b : List Char) (hp : p ≠ []) (hw : w ≠ [])
    (hd : ∀ c ∈ w, c ∉ p) :
    ∀ a, countOccur p (a ++ (w ++ b)) = countOccur p a + countOccur p b := by
  intro a
  induction a with
  | nil =>
    simp only [List.nil_append, countOccur]
    rw [countOccur_clean_head p hp w b hd]
    simp [countOccur]
  | cons c a' ih =>
    simp only [List.cons_append, countOccur, List.append_eq]
    have hj := isPrefixOf_append_sep p w b hp hw hd (c :: a')
    simp only [List.cons_append] at hj
    simp only [hj]
    rw [ih, Nat.add_assoc]

/-- Occurrence counting splits at an interpolated decimal number, for any
pattern made of non-digit characters. -/
theorem countOccur_split (p : List Char) (hp : p ≠ [])
    (hpd : ∀ c ∈ p, c.isDigit = false) (n : Nat) (a b : List Char) :
    countOccur p (a ++ ((toString n).data ++ b)) = countOccur p a + countOccur p b := by
  refine countOccur_append_sep p (toString n).data b hp (natToString_ne_nil n) ?_ a
  intro c hc hcp
  have h1 := natToString_isDigit n c hc
  have h2 := hpd c hcp
  rw [h1] at h2
  cases h2

/-- One rendering step: a fragment shaped "label, digits, closing tag,
rest" contains the item "label ++ digits ++ </li>" followed by whatever
`rest` contains. -/
theorem ContainsInOrder_item (a rest : List Char) (lbl : String) (n : Nat) (ps : List String)
    (h : ContainsInOrder rest ps) :
    ContainsInOrder (a ++ (lbl.data ++ ((toString n).data ++ ("</li>".data ++ rest))))
      ((lbl ++ toString n ++ "</li>") :: ps) := by
  refine ⟨a, rest, ?_, h⟩
  simp [string_data_append, List.append_assoc]

/-- Variant of `ContainsInOrder_item` for an item at the head of the
fragment remainder. -/
theorem ContainsInOrder_item0 (rest : List Char) (lbl : String) (n : Nat) (ps : List String)
    (h : ContainsInOrder rest ps) :
    ContainsInOrder (lbl.data ++ ((toString n).data ++ ("</li>".data ++ rest)))
      ((lbl ++ toString n ++ "</li>") :: ps) := by
  have h2 := ContainsInOrder_item [] rest lbl n ps h
  simpa using h2

/-- The character list of `format s`, grouped item-wise: header, then for
each list item its label, digits and closing tag, then the footer. -/
theorem format_data_items (s : Summary) : (format s).data =
    ("<div class='requestSummaryBox'>".data ++ "<ul>".data) ++
    ("<li> requests: ".data ++ ((toString s.summaryStruct.length).data ++ ("</li>".data ++
    ("<li> total events: ".data ++ ((toString s.summaryStruct.totalEvents).data ++ ("</li>".data ++
    ("<li> processed events: ".data ++ ((toString s.summaryStruct.processedEvents).data ++ ("</li>".data ++
    ("<li> created: ".data ++ ((toString s.getWMBSTotalJobs).data ++ ("</li>".data ++
    ("<li> cooloff: ".data ++ ((toString s.getTotalCooloff).data ++ ("</li>".data ++
    ("<li> success: ".data ++ ((toString (s.getJobStatus "success")).data ++ ("</li>".data ++
    ("<li> failure: ".data ++ ((toString s.getTotalFailure).data ++ ("</li>".data ++
    ("<li> queued: ".data ++ ((toString s.getTotalQueued).data ++ ("</li>".data ++
    ("<li> running: ".data ++ ((toString (s.getJobStatus "submit.running")).data ++ ("</li>".data ++
    ("<li> pending: ".data ++ ((toString (s.getJobStatus "submit.pending")).data ++ ("</li>".data ++
    ("</ul>".data ++ "</div>".data))))))))))))))))))))))))))))))) := by
  simp only [format, string_data_append, string_data_empty, List.nil_append, List.append_assoc]

/-- Claim C1: for every summary whose accessors all return values (a total
`Summary`), the rendered fragment contains the ten labeled values — requests
count, total events, processed events, created (WMBS total jobs), cooloff
total, success count, failure total, queued total, running count (job status
"submit.running"), pending count (job status "submit.pending") — in this
fixed order, each interpolated as plain text into a list item. -/
theorem format_contains_labeled_values (s : Summary) :
    ContainsInOrder (format s).data
      ["<li> requests: " ++ toString s.summaryStruct.length ++ "</li>",
       "<li> total events: " ++ toString s.summaryStruct.totalEvents ++ "</li>",
       "<li> processed events: " ++ toString s.summaryStruct.processedEvents ++ "</li>",
       "<li> created: " ++ toString s.getWMBSTotalJobs ++ "</li>",
       "<li> cooloff: " ++ toString s.getTotalCooloff ++ "</li>",
       "<li> success: " ++ toString (s.getJobStatus "success") ++ "</li>",
       "<li> failure: " ++ toString s.getTotalFailure ++ "</li>",
       "<li> queued: " ++ toString s.getTotalQueued ++ "</li>",
       "<li> running: " ++ toString (s.getJobStatus "submit.running") ++ "</li>",
       "<li> pending: " ++ toString (s.getJobStatus "submit.pending") ++ "</li>"] := by
  rw [format_data_items]
  refine ContainsInOrder_item _ _ _ _ _ ?_
  refine ContainsInOrder_item0 _ _ _ _ ?_
  refine ContainsInOrder_item0 _ _ _ _ ?_
  refine ContainsInOrder_item0 _ _ _ _ ?_
  refine ContainsInOrder_item0 _ _ _ _ ?_
  refine ContainsInOrder_item0 _ _ _ _ ?_
  refine ContainsInOrder_item0 _ _ _ _ ?_
  refine ContainsInOrder_item0 _ _ _ _ ?_
  refine ContainsInOrder_item0 _ _ _ _ ?_
  refine ContainsInOrder_item0 _ _ _ _ ?_
  trivial

/-- Claim C10: for every summary, the fragment begins with
`<div class='requestSummaryBox'><ul>`, ends with `</ul></div>`, and has
exactly ten `<li>` list items, each `<li>` followed by exactly one space
(the single leading space before its label), regardless of the accessor
values. -/
theorem format_fragment_shape (s : Summary) :
    (∃ t, (format s).data = "<div class='requestSummaryBox'><ul>".data ++ t) ∧
    (∃ u, (format s).data = u ++ "</ul></div>".data) ∧
    countOccur "<li>".data (format s).data = 10 ∧
    countOccur "<li> ".data (format s).data = 10 ∧
    countOccur "<li>  ".data (format s).data = 0 := by
  refine ⟨?_, ?_, ?_, ?_, ?_⟩
  · rw [show ("<div class='requestSummaryBox'><ul>".data : List Char) =
        "<div class='requestSummaryBox'>".data ++ "<ul>".data from by decide,
      format_data]
    simp only [List.append_assoc]
    exact ⟨_, rfl⟩
  · rw [show ("</ul></div>".data : List Char) = "</ul>".data ++ "</div>".data from by decide,
      format_data]
    simp only [← List.append_assoc]
    exact ⟨_, rfl⟩
  · rw [format_data]
    simp only [countOccur_split ("<li>".data) (by decide) (by decide)]
    decide
  · rw [format_data]
    simp only [countOccur_split ("<li> ".data) (by decide) (by decide)]
    decide
  · rw [format_data]
    simp only [countOccur_split ("<li>  ".data) (by decide) (by decide)]
    decide

set_option maxRecDepth 40000 in
/-- Claim C2 (counterexample): on the specification's example summary the
fragment does not contain the list item text "requests: 3" flush against its
tags — the item the renderer emits is "<li> requests: 3</li>", whose text
between the tags is " requests: 3" with a leading space, not exactly
"requests: 3". -/
theorem format_example_counterexample :
    countOccur "<li>requests: 3</li>".data (format exampleSummary).data = 0 ∧
    countOccur "<li> requests: 3</li>".data (format exampleSummary).data = 1 := by
  decide

set_option maxRecDepth 40000 in
/-- Claim C2 (amended): on the example summary the rendered fragment is
exactly the string below; its ten list items read " requests: 3",
" total events: 100", " processed events: 50", " created: 10", " cooloff: 2",
" success: 8", " failure: 1", " queued: 4", " running: 3", " pending: 2" —
the claimed texts each preceded by a single space — in that order. -/
theorem format_example_fragment :
    format exampleSummary =
      "<div class='requestSummaryBox'><ul><li> requests: 3</li><li> total events: 100</li><li> processed events: 50</li><li> created: 10</li><li> cooloff: 2</li><li> success: 8</li><li> failure: 1</li><li> queued: 4</li><li> running: 3</li><li> pending: 2</li></ul></div>" := by
  decide

/-- If any accessor the renderer calls is absent, the effectful `format`
aborts with the missing-field error. -/
theorem formatG_missing (g : Globals) (d : DynSummary)
    (h : d.getWMBSTotalJobs = none ∨ d.getTotalCooloff = none ∨ d.getJobStatus = none ∨
      d.getTotalFailure = none ∨ d.getTotalQueued = none) :
    (formatG g d).2 = Except.error RenderFailure.renderError := by
  rcases h with h | h | h | h | h
  · simp [formatG, h]
  · cases h1 : d.getWMBSTotalJobs <;> simp [formatG, h, h1]
  · cases h1 : d.getWMBSTotalJobs <;> cases h2 : d.getTotalCooloff <;>
      simp [formatG, h, h1, h2]
  · cases h1 : d.getWMBSTotalJobs <;> cases h2 : d.getTotalCooloff <;>
      cases h3 : d.getJobStatus <;> simp [formatG, h, h1, h2, h3]
  · cases h1 : d.getWMBSTotalJobs <;> cases h2 : d.getTotalCooloff <;>
      cases h3 : d.getJobStatus <;> cases h4 : d.getTotalFailure <;>
      simp [formatG, h, h1, h2, h3, h4]

/-- Claim C3: rendering is idempotent on the container — rendering the same
valid summary into the same container twice leaves the DOM exactly as a
single rendering does (the second run starts from the first run's global
scope and DOM). -/
theorem render_idempotent (g : Globals) (dom : DOM) (s : Summary) (c : String) :
    (WMStats.RequestDataList (WMStats.RequestDataList g dom s.toDyn c).1
        (WMStats.RequestDataList g dom s.toDyn c).2.1 s.toDyn c).2.1 =
      (WMStats.RequestDataList g dom s.toDyn c).2.1 := by
  cases hc : dom.content c with
  | none =>
    simp [WMStats.RequestDataList, formatG_toDyn, hc]
  | some old =>
    simp only [WMStats.RequestDataList, formatG_toDyn, hc]
    simp only [ite_true, if_pos]
    ext k
    by_cases hk : k = c <;> simp [hk]

/-- Claim C4: rendering replaces rather than appends — whatever content the
container held before, afterwards it holds exactly the rendered fragment,
and the renderer reports success. -/
theorem render_replaces (g : Globals) (dom : DOM) (s : Summary) (c : String)
    (old : String) (h : dom.content c = some old) :
    ((WMStats.RequestDataList g dom s.toDyn c).2.1).content c = some (format s) ∧
    (WMStats.RequestDataList g dom s.toDyn c).2.2.2 = Except.ok () := by
  simp [WMStats.RequestDataList, formatG_toDyn, h]

/-- Witness for C4 at the example summary over a container holding stale
content. -/
theorem render_replaces_witness :
    ((WMStats.RequestDataList { htmlstr := none } exampleDom exampleSummary.toDyn
        "requestDiv").2.1).content "requestDiv" = some (format exampleSummary) ∧
    (WMStats.RequestDataList { htmlstr := none } exampleDom exampleSummary.toDyn
        "requestDiv").2.2.2 = Except.ok () :=
  render_replaces { htmlstr := none } exampleDom exampleSummary "requestDiv"
    "stale content" (by simp [exampleDom])

/-- Claim C5: the `format` operation is deterministic — two summaries that
agree on every field and accessor value the renderer observes produce the
same fragment. -/
theorem format_deterministic (s1 s2 : Summary)
    (h1 : s1.summaryStruct.length = s2.summaryStruct.length)
    (h2 : s1.summaryStruct.totalEvents = s2.summaryStruct.totalEvents)
    (h3 : s1.summaryStruct.processedEvents = s2.summaryStruct.processedEvents)
    (h4 : s1.getWMBSTotalJobs = s2.getWMBSTotalJobs)
    (h5 : s1.getTotalCooloff = s2.getTotalCooloff)
    (h6 : s1.getJobStatus "success" = s2.getJobStatus "success")
    (h7 : s1.getTotalFailure = s2.getTotalFailure)
    (h8 : s1.getTotalQueued = s2.getTotalQueued)
    (h9 : s1.getJobStatus "submit.running" = s2.getJobStatus "submit.running")
    (h10 : s1.getJobStatus "submit.pending" = s2.getJobStatus "submit.pending") :
    format s1 = format s2 := by
  simp [format, h1, h2, h3, h4, h5, h6, h7, h8, h9, h10]

/-- Witness for C5: two concretely different summary objects with equal
observed values render the same fragment. -/
theorem format_deterministic_witness : format exampleSummary = format exampleSummary2 :=
  format_deterministic exampleSummary exampleSummary2 rfl rfl rfl rfl rfl
    (by decide) rfl rfl (by decide) (by decide)

/-- Claim C6: if any accessor the renderer needs is absent, rendering fails
with the missing-field `renderError` and the DOM — in particular the
container's content — is left unmodified. -/
theorem render_missing_accessor (g : Globals) (dom : DOM) (d : DynSummary) (c : String)
    (h : d.getWMBSTotalJobs = none ∨ d.getTotalCooloff = none ∨ d.getJobStatus = none ∨
      d.getTotalFailure = none ∨ d.getTotalQueued = none) :
    (WMStats.RequestDataList g dom d c).2.2.2 = Except.error RenderFailure.renderError ∧
    (WMStats.RequestDataList g dom d c).2.1 = dom := by
  have hf := formatG_missing g d h
  rcases hfg : formatG g d with ⟨g1, r⟩
  rw [hfg] at hf
  simp only at hf
  subst hf
  simp [WMStats.RequestDataList, hfg]

/-- Witness for C6: the example summary without its `getTotalQueued`
capability makes the renderer fail and leaves the stale container content
in place. -/
theorem render_missing_accessor_witness :
    (WMStats.RequestDataList { htmlstr := none } exampleDom exampleNoQueued
        "requestDiv").2.2.2 = Except.error RenderFailure.renderError ∧
    (WMStats.RequestDataList { htmlstr := none } exampleDom exampleNoQueued
        "requestDiv").2.1 = exampleDom :=
  render_missing_accessor { htmlstr := none } exampleDom exampleNoQueued "requestDiv"
    (Or.inr (Or.inr (Or.inr (Or.inr rfl))))

/-- Claim C7: if the container reference does not resolve, rendering fails
with `targetNotFoundError` and no markup is produced anywhere — the DOM is
returned unchanged. -/
theorem render_target_not_found (g : Globals) (dom : DOM) (s : Summary) (c : String)
    (h : dom.content c = none) :
    (WMStats.RequestDataList g dom s.toDyn c).2.2.2 =
      Except.error RenderFailure.targetNotFoundError ∧
    (WMStats.RequestDataList g dom s.toDyn c).2.1 = dom := by
  simp [WMStats.RequestDataList, formatG_toDyn, h]

/-- Witness for C7: rendering the example summary into a DOM where no
container resolves fails with `targetNotFoundError`. -/
theorem render_target_not_found_witness :
    (WMStats.RequestDataList { htmlstr := none } emptyDom exampleSummary.toDyn
        "requestDiv").2.2.2 = Except.error RenderFailure.targetNotFoundError ∧
    (WMStats.RequestDataList { htmlstr := none } emptyDom exampleSummary.toDyn
        "requestDiv").2.1 = emptyDom :=
  render_target_not_found { htmlstr := none } emptyDom exampleSummary "requestDiv" rfl

/-- Claim C8: the summary is read-only during rendering — the renderer
returns the summary object it was given, with every field and accessor
unchanged. -/
theorem render_preserves_summary (g : Globals) (dom : DOM) (d : DynSummary) (c : String) :
    (WMStats.RequestDataList g dom d c).2.2.1 = d := by
  rcases hfg : formatG g d with ⟨g1, r⟩
  cases r with
  | error e => simp [WMStats.RequestDataList, hfg]
  | ok markup => cases hdc : dom.content c <;> simp [WMStats.RequestDataList, hfg, hdc]

set_option maxRecDepth 40000 in
/-- Claim C9 (code evaluation): `format` writes the global binding
`htmlstr` — running it on the specification's example summary in a scope
where `htmlstr` is undefined leaves the full fragment in the global
`htmlstr`, so the renderer does not leave global bindings unchanged. -/
theorem format_writes_global_htmlstr :
    (formatG { htmlstr := none } exampleSummary.toDyn).1 ≠ { htmlstr := none } ∧
    (formatG { htmlstr := none } exampleSummary.toDyn).1.htmlstr =
      some (format exampleSummary) := by
  decide
